import Mathlib

/-
Shallow embedding of the tick-monitoring engine in
src/hooks/use-upstox-tick-data.ts (the `useUpstoxTickData` hook).

Modelling conventions:
* JS numbers are modelled as ℤ (all control flow in the code compares
  against 0 or subtracts timestamps; fractional values never influence
  any claim, and the one fractional intermediate — `Math.pow(2, -1)` in
  the backoff formula — is folded into an exact integer computation,
  see `reconnectDelay`).
* `JSON.parse` is external; an inbound frame is modelled by its parse
  outcome `Payload` (`malformed` = syntactically invalid text,
  `other` = well-formed but not a `live_feed` payload with `feeds`,
  `liveFeed` = recognized payload).
* React `useState` setters are modelled as plain field updates on an
  explicit `Engine` record; `useRef` cells are further fields.
* `setTimeout` / `clearTimeout`: each armed timer is a pending deadline
  in the state (`freezeAt`, `reconnectAt`); the connect-timeout timers
  are a list of (deadline, EventSource id) pairs because the code keeps
  the handle only in a local variable (`connectionTimeout`) and never
  stores it in a ref, so several can be pending in principle and the
  unmount cleanup cannot cancel them.
* `EventSource` objects are modelled by integer ids with a readyState
  registry (`handles`); `new EventSource(url)` allocates a fresh id in
  state CONNECTING, `close()` sets the state to CLOSED.
* Alert `message` strings and debug-log text are elided: alerts keep
  their `type` and `severity` (all claims only mention those), and the
  debug log is modelled by its entry count `debugCount`.
-/

namespace TickMonitor

/-! ### Constants (lines 31-36 of the source) -/

def FREEZE_TIMEOUT : ℤ := 30000

def MAX_TICKS : ℕ := 1000

def MAX_ALERTS : ℕ := 50

def MAX_RAW_MESSAGES : ℕ := 20

def MAX_DEBUG_INFO : ℕ := 50

/-- The `15000` ms literal of the connect-timeout `setTimeout` (line 157). -/
def CONNECT_TIMEOUT : ℤ := 15000

/-! ### Ring-buffer primitive

`[x, ...prev.slice(0, N - 1)]` (alerts, raw messages, debug log) and
`[...batch, ...prev].slice(0, N)` (ticks) are both prepend-then-truncate. -/

/-- One push into a capacity-`N` ring buffer: prepend, truncate to `N`.
`(x :: b).take N` is definitionally `x :: b.take (N-1)` for positive `N`,
i.e. exactly `[x, ...prev.slice(0, N - 1)]`. -/
def rbPush (N : ℕ) (x : α) (b : List α) : List α := (x :: b).take N

/-- A batch prepend `[...xs, ...prev].slice(0, N)` (tick buffer, line 216). -/
def rbPushBatch (N : ℕ) (xs : List α) (b : List α) : List α := (xs ++ b).take N

/-- Push the elements of `xs` one by one, left to right. -/
def rbPushAll (N : ℕ) (xs : List α) (b : List α) : List α :=
  xs.foldl (fun acc x => rbPush N x acc) b

/-- The buffer obtained from `k` pushes starting empty. -/
def rbFromList (N : ℕ) (xs : List α) : List α := rbPushAll N xs []

/-! ### Inbound payload model -/

/-- The `ltpc` sub-record `{ ltp, ltq?, cp?, ltt? }` of a feeds entry.
`ltp` is `Option` because the field may be absent (`!ltpc?.ltp`). -/
structure Ltpc where
  ltp : Option ℤ
  ltq : Option ℤ
  cp : Option ℤ
  ltt : Option ℤ
deriving DecidableEq

/-- One `feeds[key]` entry. `ltpc` models `item?.ff?.marketFF?.ltpc`
(absence of any link in the optional chain collapses to `none`);
`ohlcVolume` models `item?.ff?.marketFF?.marketOHLC?.ohlc?.at(-1)?.volume`
and `volume` models `item.volume`. -/
structure FeedEntry where
  ltpc : Option Ltpc
  ohlcVolume : Option ℤ
  volume : Option ℤ
deriving DecidableEq

/-- Parse outcome of one inbound text frame.  `malformed`: `JSON.parse`
throws. `other`: parses but fails the
`payload?.type === "live_feed" && payload.feeds` test.  `liveFeed`:
recognized, with the `Object.entries` of `feeds` in iteration order. -/
inductive Payload where
  | malformed : Payload
  | other : Payload
  | liveFeed : List (String × FeedEntry) → Payload
deriving DecidableEq

/-! ### Key splitting (line 198: `const [exchange, symbol] = key.split('|')`) -/

/-- JS `String.prototype.split` with a single-character separator:
`"".split(c) = [""]`, and each separator occurrence ends a chunk. -/
def jsSplit (sep : Char) : List Char → List (List Char)
  | [] => [[]]
  | c :: cs =>
    if c = sep then [] :: jsSplit sep cs
    else
      match jsSplit sep cs with
      | [] => [[c]]
      | p :: ps => (c :: p) :: ps

/-- `key.split('|')` as a list of strings. -/
def splitParts (key : String) : List String := (jsSplit '|' key.data).map String.mk

/-- The `exchange` component of a constructed live tick:
`exchange || "UNK"` where `exchange` is the first chunk of the split. -/
def keyExchange (key : String) : String :=
  let e := (splitParts key).headD ("")
  if e = ("") then ("UNK") else e

/-- The `tradingsymbol` component of a constructed live tick:
`symbol || key` where `symbol` is the second chunk of the split
(`undefined` when the separator is absent). -/
def keySymbol (key : String) : String :=
  match (splitParts key)[1]? with
  | some sm => if sm = ("") then key else sm
  | none => key

/-! ### Delay tracker (`lastTickForInstrument`, a `Map<string, number>`) -/

/-- `Map.get` — first binding wins (later `set`s shadow earlier ones). -/
def trackGet (key : String) : List (String × ℤ) → Option ℤ
  | [] => none
  | (k, v) :: r => if key = k then some v else trackGet key r

/-- `Map.set key v` — prepend a shadowing binding. -/
def trackSet (key : String) (v : ℤ) (tr : List (String × ℤ)) : List (String × ℤ) :=
  (key, v) :: tr

/-- `const delay = prev ? ts - prev : 0` (line 194): the JS condition is
truthiness of `prev`, so an absent previous timestamp AND a previous
timestamp equal to `0` both yield delay `0`. -/
def tickDelay (prev : Option ℤ) (ts : ℤ) : ℤ :=
  match prev with
  | some p => if p = 0 then 0 else ts - p
  | none => 0

/-- `...?.volume ?? Number(item.volume ?? 0)` (line 206). -/
def entryVolume (e : FeedEntry) : ℤ := e.ohlcVolume.getD (e.volume.getD 0)

/-- The data extracted from one accepted feeds entry, before the
live/test-specific identifier fields are attached. -/
structure Decoded where
  key : String
  ts : ℤ
  delay : ℤ
  last_price : ℤ
  last_quantity : ℤ
  average_price : ℤ
  volume : ℤ
deriving DecidableEq

/-- The `for (const [key, item] of Object.entries(payload.feeds))` loop
body shared by `onmessage` (lines 188-213) and `addTestTick` (lines
98-120): skip the entry when `!ltpc?.ltp` (absent chain, absent `ltp`,
or `ltp` falsy, i.e. `0`); otherwise compute `ts`, `delay`, update the
tracker unconditionally, and collect the decoded record. -/
def decodeFeeds (now : ℤ) :
    List (String × FeedEntry) → List (String × ℤ) → List Decoded × List (String × ℤ)
  | [], tr => ([], tr)
  | (key, item) :: rest, tr =>
    match item.ltpc with
    | none => decodeFeeds now rest tr
    | some l =>
      match l.ltp with
      | none => decodeFeeds now rest tr
      | some ltp =>
        if ltp = 0 then decodeFeeds now rest tr
        else
          let ts := l.ltt.getD now
          let d := tickDelay (trackGet key tr) ts
          let r := decodeFeeds now rest (trackSet key ts tr)
          (⟨key, ts, d, ltp, l.ltq.getD 0, l.cp.getD ltp, entryVolume item⟩ :: r.1, r.2)

/-! ### Tick records -/

/-- `UpstoxTickData` minus the `id` field (the id embeds
`Math.random()` / is never read by any claim). -/
structure UpstoxTickData where
  instrument_token : String
  last_price : ℤ
  last_quantity : ℤ
  average_price : ℤ
  volume : ℤ
  timestamp : ℤ
  receivedAt : ℤ
  delay : ℤ
  tradingsymbol : String
  exchange : String
deriving DecidableEq

/-- Tick constructed by the live `onmessage` path (lines 200-212). -/
def liveTick (now : ℤ) (d : Decoded) : UpstoxTickData :=
  { instrument_token := d.key
    last_price := d.last_price
    last_quantity := d.last_quantity
    average_price := d.average_price
    volume := d.volume
    timestamp := d.ts
    receivedAt := now
    delay := d.delay
    tradingsymbol := keySymbol d.key
    exchange := keyExchange d.key }

/-- Tick constructed by the `addTestTick` path (lines 107-119). -/
def testTick (now : ℤ) (d : Decoded) : UpstoxTickData :=
  { instrument_token := d.key
    last_price := d.last_price
    last_quantity := d.last_quantity
    average_price := d.average_price
    volume := d.volume
    timestamp := d.ts
    receivedAt := now
    delay := d.delay
    tradingsymbol := ("TEST_") ++ d.key
    exchange := ("TEST") }

/-! ### Alerts and statuses -/

inductive AlertKind where
  | connection : AlertKind
  | data : AlertKind
  | freeze : AlertKind
deriving DecidableEq

inductive Severity where
  | low : Severity
  | medium : Severity
  | high : Severity
deriving DecidableEq

/-- `UpstoxAlert` minus `id` (a UUID) and `message`/`timestamp`. -/
structure Alert where
  kind : AlertKind
  severity : Severity
deriving DecidableEq

inductive ConnStatus where
  | disconnected : ConnStatus
  | connecting : ConnStatus
  | connected : ConnStatus
  | error : ConnStatus
deriving DecidableEq

/-- `EventSource.readyState`. -/
inductive ReadyState where
  | connecting : ReadyState
  | opened : ReadyState
  | closed : ReadyState
deriving DecidableEq

/-! ### Engine state -/

/-- The complete mutable state of one `useUpstoxTickData` instance. -/
structure Engine where
  ticks : List UpstoxTickData
  alerts : List Alert
  connectionStatus : ConnStatus
  isFrozen : Bool
  lastTickTime : Option ℤ
  totalTicks : ℕ
  freezingIncidents : ℕ
  rawMessages : List Payload
  debugCount : ℕ
  lastTickForInstrument : List (String × ℤ)
  connectionAttempts : ℕ
  esRef : Option ℕ
  handles : List (ℕ × ReadyState)
  nextId : ℕ
  freezeAt : Option ℤ
  reconnectAt : Option ℤ
  connectTimeouts : List (ℤ × ℕ)
deriving DecidableEq

/-- readyState of EventSource `i` (unknown ids read as CLOSED). -/
def findState (i : ℕ) : List (ℕ × ReadyState) → ReadyState
  | [] => ReadyState.closed
  | (j, st) :: hs => if i = j then st else findState i hs

/-- `addDebugInfo` (lines 62-69): appends one debug-log entry. -/
def addDebugInfo (s : Engine) : Engine := { s with debugCount := s.debugCount + 1 }

/-- `addAlert` (lines 71-77): prepend-truncate into the alert buffer,
then one debug entry. -/
def addAlert (k : AlertKind) (sev : Severity) (s : Engine) : Engine :=
  { s with
    alerts := rbPush MAX_ALERTS ⟨k, sev⟩ s.alerts
    debugCount := s.debugCount + 1 }

/-- `scheduleFreeze` (lines 79-86): cancel any pending watchdog timer and
arm a fresh one `FREEZE_TIMEOUT` from now. -/
def scheduleFreeze (t : ℤ) (s : Engine) : Engine :=
  { s with freezeAt := some (t + FREEZE_TIMEOUT) }

/-- `clearTimeout(connectionTimeout)`: drop the pending connect-timeout
of the attempt that created EventSource `h`. -/
def removeTimeout (h : ℕ) (s : Engine) : Engine :=
  { s with connectTimeouts := s.connectTimeouts.filter (fun q => q.2 ≠ h) }

/-- `Math.min(5000 * Math.pow(2, connectionAttempts - 1), 30000)`
(line 240).  For `attempts = 0` JS computes `5000 * 0.5 = 2500` exactly;
since `5000 * 2 ^ (a - 1) = (5000 * 2 ^ a) / 2` exactly for every
`a : ℕ` (the numerator is even), the formula is expressed over ℤ. -/
def reconnectDelay (attempts : ℕ) : ℤ := min ((5000 * 2 ^ attempts) / 2) 30000

/-- `connectToUpstox` (lines 134-253) up to installing the callbacks:
close any existing EventSource, bump the attempt counter, publish
`connecting`, allocate a fresh EventSource and arm its connect-timeout.
(The `catch` branch of lines 248-252 is unreachable in the model: the
`EventSource` constructor itself is not made to throw.) -/
def connectToUpstox (t : ℤ) (s : Engine) : Engine :=
  let s0 :=
    match s.esRef with
    | some h => { s with handles := (h, ReadyState.closed) :: s.handles,
                         debugCount := s.debugCount + 1 }
    | none => s
  { s0 with
    connectionAttempts := s0.connectionAttempts + 1
    connectionStatus := ConnStatus.connecting
    debugCount := s0.debugCount + 2
    handles := (s0.nextId, ReadyState.connecting) :: s0.handles
    esRef := some s0.nextId
    nextId := s0.nextId + 1
    connectTimeouts := (t + CONNECT_TIMEOUT, s0.nextId) :: s0.connectTimeouts }

/-- `es.onopen` (lines 160-167): only the current, still-CONNECTING
EventSource delivers an open event. -/
def onopen (t : ℤ) (s : Engine) : Engine :=
  match s.esRef with
  | none => s
  | some h =>
    if findState h s.handles = ReadyState.connecting then
      let s1 := removeTimeout h s
      let s2 := addDebugInfo { s1 with handles := (h, ReadyState.opened) :: s1.handles }
      let s3 := { s2 with connectionStatus := ConnStatus.connected, connectionAttempts := 0 }
      scheduleFreeze t (addAlert AlertKind.connection Severity.low s3)
    else s

/-- `es.onmessage` (lines 170-229): only an OPEN EventSource delivers
messages.  Re-arm the watchdog, log the raw frame, then decode. -/
def onmessage (t : ℤ) (p : Payload) (s : Engine) : Engine :=
  match s.esRef with
  | none => s
  | some h =>
    if findState h s.handles = ReadyState.opened then
      let s1 := scheduleFreeze t s
      let s2 := { s1 with rawMessages := rbPush MAX_RAW_MESSAGES p s1.rawMessages }
      match p with
      | Payload.malformed => addDebugInfo (addAlert AlertKind.data Severity.medium s2)
      | Payload.other => addDebugInfo (addDebugInfo s2)
      | Payload.liveFeed feeds =>
        let s3 := addDebugInfo s2
        let r := decodeFeeds t feeds s3.lastTickForInstrument
        let s4 := { s3 with lastTickForInstrument := r.2 }
        if r.1.isEmpty then s4
        else
          addDebugInfo
            { s4 with
              ticks := rbPushBatch MAX_TICKS (r.1.map (liveTick t)) s4.ticks
              totalTicks := s4.totalTicks + r.1.length
              lastTickTime := some t
              isFrozen := false }
    else s

/-- `es.onerror` (lines 232-247).  `closed` tells whether the transport
left the EventSource in readyState CLOSED when the handler ran. -/
def onerror (t : ℤ) (closed : Bool) (s : Engine) : Engine :=
  match s.esRef with
  | none => s
  | some h =>
    let s1 := if closed then { s with handles := (h, ReadyState.closed) :: s.handles } else s
    let s2 := addDebugInfo (removeTimeout h s1)
    if closed then
      let s3 := addDebugInfo { s2 with connectionStatus := ConnStatus.error }
      let s4 := addDebugInfo (addAlert AlertKind.connection Severity.high s3)
      { s4 with reconnectAt := some (t + reconnectDelay s4.connectionAttempts) }
    else s2

/-- The connect-timeout callback (lines 150-157) firing at its deadline:
the timer is consumed; if the captured EventSource is still CONNECTING,
close it, publish `error` and emit a high connection alert.  (It does
NOT schedule a reconnect.) -/
def connectionTimeoutFire (t : ℤ) (id : ℕ) (s : Engine) : Engine :=
  if (t, id) ∈ s.connectTimeouts then
    let s1 := { s with connectTimeouts := s.connectTimeouts.filter (fun q => q ≠ (t, id)) }
    if findState id s1.handles = ReadyState.connecting then
      let s2 := addDebugInfo { s1 with handles := (id, ReadyState.closed) :: s1.handles }
      addAlert AlertKind.connection Severity.high
        { s2 with connectionStatus := ConnStatus.error }
    else s1
  else s

/-- The reconnect timer (armed at line 245) firing at its deadline:
the timer is consumed and `connectToUpstox` runs again. -/
def reconnectFire (t : ℤ) (s : Engine) : Engine :=
  if s.reconnectAt = some t then connectToUpstox t { s with reconnectAt := none } else s

/-- The watchdog callback (lines 81-85) firing at its deadline: mark
frozen, bump the incident counter, emit a high freeze alert.  The timer
is single-shot, so the pending deadline is consumed. -/
def freezeTimeoutFire (t : ℤ) (s : Engine) : Engine :=
  if s.freezeAt = some t then
    addAlert AlertKind.freeze Severity.high
      { s with freezeAt := none, isFrozen := true,
               freezingIncidents := s.freezingIncidents + 1 }
  else s

/-- `addTestTick` (lines 89-132), the `injectFrame` operation: one debug
entry, then the same decode loop as the live path but with test
identifier fields; a parse failure only logs debug (no alert); nothing
here touches the watchdog, the connection or the alert buffer. -/
def addTestTick (t : ℤ) (p : Payload) (s : Engine) : Engine :=
  let s1 := addDebugInfo s
  match p with
  | Payload.malformed => addDebugInfo s1
  | Payload.other => s1
  | Payload.liveFeed feeds =>
    let r := decodeFeeds t feeds s1.lastTickForInstrument
    let s2 := { s1 with lastTickForInstrument := r.2 }
    if r.1.isEmpty then s2
    else
      addDebugInfo
        { s2 with
          ticks := rbPushBatch MAX_TICKS (r.1.map (testTick t)) s2.ticks
          totalTicks := s2.totalTicks + r.1.length
          lastTickTime := some t }

/-- The unmount cleanup (lines 260-275): one debug entry, close the
current EventSource, cancel the watchdog and reconnect timers.  The
connect-timeout timers live in local variables and are NOT cancelled. -/
def cleanup (s : Engine) : Engine :=
  let s1 := addDebugInfo s
  let s2 :=
    match s1.esRef with
    | some h => { s1 with handles := (h, ReadyState.closed) :: s1.handles, esRef := none }
    | none => s1
  { s2 with freezeAt := none, reconnectAt := none }

/-! ### Event-driven small-step semantics -/

/-- Externally visible events, each tagged with the wall-clock time at
which it occurs.  Timer-fire events only take effect when their time
matches the pending deadline (the guards inside the step functions). -/
inductive Ev where
  | connect : ℤ → Ev
  | openEv : ℤ → Ev
  | message : ℤ → Payload → Ev
  | errorEv : ℤ → Bool → Ev
  | timeoutFire : ℤ → ℕ → Ev
  | reconnectEv : ℤ → Ev
  | freezeEv : ℤ → Ev
  | inject : ℤ → Payload → Ev
  | stopEv : Ev

def step (s : Engine) (e : Ev) : Engine :=
  match e with
  | Ev.connect t => connectToUpstox t s
  | Ev.openEv t => onopen t s
  | Ev.message t p => onmessage t p s
  | Ev.errorEv t closed => onerror t closed s
  | Ev.timeoutFire t id => connectionTimeoutFire t id s
  | Ev.reconnectEv t => reconnectFire t s
  | Ev.freezeEv t => freezeTimeoutFire t s
  | Ev.inject t p => addTestTick t p s
  | Ev.stopEv => cleanup s

/-- The initial hook state (lines 42-59): everything empty,
`disconnected`, no timers, no EventSource. -/
def init : Engine :=
  { ticks := []
    alerts := []
    connectionStatus := ConnStatus.disconnected
    isFrozen := false
    lastTickTime := none
    totalTicks := 0
    freezingIncidents := 0
    rawMessages := []
    debugCount := 0
    lastTickForInstrument := []
    connectionAttempts := 0
    esRef := none
    handles := []
    nextId := 0
    freezeAt := none
    reconnectAt := none
    connectTimeouts := [] }

/-- The engine state after a trace of events from the initial state. -/
def run (es : List Ev) : Engine := es.foldl step init

/-! ### The four independent ring-buffer instances (spec section 3) -/

/-- The four buffers as one record, to state cross-buffer independence. -/
structure Buffers where
  ticksBuf : List UpstoxTickData
  alertsBuf : List Alert
  rawBuf : List Payload
  debugBuf : List String
deriving DecidableEq

def pushTickB (x : UpstoxTickData) (b : Buffers) : Buffers :=
  { b with ticksBuf := rbPush MAX_TICKS x b.ticksBuf }

def pushAlertB (x : Alert) (b : Buffers) : Buffers :=
  { b with alertsBuf := rbPush MAX_ALERTS x b.alertsBuf }

def pushRawB (x : Payload) (b : Buffers) : Buffers :=
  { b with rawBuf := rbPush MAX_RAW_MESSAGES x b.rawBuf }

def pushDebugB (x : String) (b : Buffers) : Buffers :=
  { b with debugBuf := rbPush MAX_DEBUG_INFO x b.debugBuf }

/-! ## Ring-buffer lemmas -/

lemma take_append_take (N : ℕ) (l m : List α) :
    (l ++ m.take N).take N = (l ++ m).take N := by
  rw [List.take_append_eq_append_take, List.take_append_eq_append_take, List.take_take,
    Nat.min_eq_left (Nat.sub_le _ _)]

lemma rbPushAll_eq (N : ℕ) (xs b : List α) (hb : b.length ≤ N) :
    rbPushAll N xs b = (xs.reverse ++ b).take N := by
  induction xs generalizing b with
  | nil => simp [rbPushAll, List.take_of_length_le hb]
  | cons x xs ih =>
    have h1 : (rbPush N x b).length ≤ N := by
      simp [rbPush, List.length_take]
    calc rbPushAll N (x :: xs) b = rbPushAll N xs (rbPush N x b) := rfl
      _ = (xs.reverse ++ rbPush N x b).take N := ih _ h1
      _ = (xs.reverse ++ (x :: b)).take N := take_append_take N _ _
      _ = ((x :: xs).reverse ++ b).take N := by simp

/-- C4: for every ring-buffer capacity N (the four instances in the code
use N = 1000 for ticks, 50 for alerts, 20 for raw frames, 50 for the
debug log, all via the same prepend-truncate `rbPush`), a sequence of k
pushes starting empty yields exactly the k most recent elements,
most-recent-first, truncated to N (hence length `min k N`); a push into
a full buffer keeps the new element in front and drops the oldest
(last) element; and each of the four buffer instances is untouched by a
push into any of the other three. -/
theorem C4_ring_buffer {α : Type} :
    (∀ (N : ℕ) (xs : List α),
        rbFromList N xs = xs.reverse.take N
          ∧ (rbFromList N xs).length = min xs.length N)
    ∧ (∀ (N : ℕ) (x : α) (b : List α), 0 < N → b.length = N →
        rbPush N x b = x :: b.dropLast)
    ∧ (∀ (x : UpstoxTickData) (b : Buffers),
        (pushTickB x b).alertsBuf = b.alertsBuf ∧ (pushTickB x b).rawBuf = b.rawBuf
          ∧ (pushTickB x b).debugBuf = b.debugBuf)
    ∧ (∀ (x : Alert) (b : Buffers),
        (pushAlertB x b).ticksBuf = b.ticksBuf ∧ (pushAlertB x b).rawBuf = b.rawBuf
          ∧ (pushAlertB x b).debugBuf = b.debugBuf)
    ∧ (∀ (x : Payload) (b : Buffers),
        (pushRawB x b).ticksBuf = b.ticksBuf ∧ (pushRawB x b).alertsBuf = b.alertsBuf
          ∧ (pushRawB x b).debugBuf = b.debugBuf)
    ∧ (∀ (x : String) (b : Buffers),
        (pushDebugB x b).ticksBuf = b.ticksBuf ∧ (pushDebugB x b).alertsBuf = b.alertsBuf
          ∧ (pushDebugB x b).rawBuf = b.rawBuf) := by
  refine ⟨?_, ?_, fun x b => ⟨rfl, rfl, rfl⟩, fun x b => ⟨rfl, rfl, rfl⟩,
    fun x b => ⟨rfl, rfl, rfl⟩, fun x b => ⟨rfl, rfl, rfl⟩⟩
  · intro N xs
    have h := rbPushAll_eq N xs [] (by simp)
    refine ⟨by simpa [rbFromList] using h, ?_⟩
    rw [rbFromList, h]
    simp [List.length_take, Nat.min_comm]
  · intro N x b hN hb
    match N, hN with
    | (n + 1), _ =>
      rw [rbPush, List.take_succ_cons, List.dropLast_eq_take, hb]
      simp

theorem C4_ring_buffer_witness :
    rbPush 20 (100 : ℤ) ((List.range 20).map (fun n => (n : ℤ)))
      = 100 :: ((List.range 20).map (fun n => (n : ℤ))).dropLast :=
  (@C4_ring_buffer ℤ).2.1 20 100 _ (by decide) (by decide)

/-! ## Delay-tracker behaviour (C2, C10) -/

/-- C2 (amended): the first decoded tick for a key absent from the
tracker has delay 0; a later tick has `delay = eventTime - prior` when
the previously recorded eventTime is NONZERO, but delay 0 when the
previously recorded eventTime equals 0 (the code tests truthiness of
the looked-up value, `prev ? ts - prev : 0`, not its presence); the
tracker is updated with the new eventTime on every decoded tick. -/
theorem C2_delay_tracker :
    (∀ ts : ℤ, tickDelay none ts = 0)
    ∧ (∀ p ts : ℤ, p ≠ 0 → tickDelay (some p) ts = ts - p)
    ∧ (∀ ts : ℤ, tickDelay (some 0) ts = 0)
    ∧ (∀ (now : ℤ) (key : String) (e : FeedEntry) (l : Ltpc) (ltpv : ℤ)
        (tr : List (String × ℤ)),
        e.ltpc = some l → l.ltp = some ltpv → ltpv ≠ 0 →
          decodeFeeds now [(key, e)] tr
            = ([⟨key, l.ltt.getD now, tickDelay (trackGet key tr) (l.ltt.getD now), ltpv,
                l.ltq.getD 0, l.cp.getD ltpv, entryVolume e⟩],
              trackSet key (l.ltt.getD now) tr)) := by
  refine ⟨fun ts => rfl, fun p ts hp => by simp [tickDelay, hp], fun ts => rfl, ?_⟩
  intro now key e l ltpv tr he hl hltp
  simp [decodeFeeds, he, hl, hltp]

/-- Test fixture: an entry with `ltp = 1` and `ltt = 0`. -/
def cexEntryLttZero : FeedEntry := ⟨some ⟨some 1, none, none, some 0⟩, none, none⟩

/-- Test fixture: an entry with `ltp = 1` and `ltt = 500`. -/
def cexEntryLtt500 : FeedEntry := ⟨some ⟨some 1, none, none, some 500⟩, none, none⟩

/-- C2 counterexample: after a decoded tick records eventTime 0 for key
K, the next tick for K (eventTime 500) gets delay 0, not
`500 - 0 = 500` as the claim's unconditional difference formula
demands: the code's `prev ? ts - prev : 0` treats the recorded 0 as
falsy. -/
theorem C2_delay_tracker_cex :
    ((decodeFeeds 999 [(("K"), cexEntryLtt500)]
          (decodeFeeds 999 [(("K"), cexEntryLttZero)] []).2).1.map (fun d => d.delay)) = [0]
    ∧ (0 : ℤ) ≠ 500 - 0 := by decide

theorem C2_delay_tracker_witness :
    tickDelay (some 7) 10 = 10 - 7
    ∧ decodeFeeds 999 [(("K"), cexEntryLtt500)] []
        = ([⟨("K"), 500, tickDelay (trackGet ("K") []) 500, 1, 0, 1, 0⟩],
          trackSet ("K") 500 []) :=
  ⟨C2_delay_tracker.2.1 7 10 (by decide),
    C2_delay_tracker.2.2.2 999 ("K") cexEntryLtt500 ⟨some 1, none, none, some 500⟩ 1 []
      rfl rfl (by decide)⟩

/-- C10: an entry whose `ltpc.ltp` is present but 0 is skipped exactly
as one whose `ltpc` chain or `ltp` field is absent: no Decoded record
is produced and the tracker is not touched — processing the rest of the
frame is literally the same function application in all three cases. -/
theorem C10_zero_ltp_skipped :
    ∀ (now : ℤ) (key : String) (e : FeedEntry) (rest : List (String × FeedEntry))
      (tr : List (String × ℤ)),
      (e.ltpc = none → decodeFeeds now ((key, e) :: rest) tr = decodeFeeds now rest tr)
      ∧ (∀ l : Ltpc, e.ltpc = some l → l.ltp = none →
          decodeFeeds now ((key, e) :: rest) tr = decodeFeeds now rest tr)
      ∧ (∀ l : Ltpc, e.ltpc = some l → l.ltp = some 0 →
          decodeFeeds now ((key, e) :: rest) tr = decodeFeeds now rest tr) := by
  intro now key e rest tr
  exact ⟨fun h => by simp [decodeFeeds, h],
    fun l hl hp => by simp [decodeFeeds, hl, hp],
    fun l hl hp => by simp [decodeFeeds, hl, hp]⟩

/-- Test fixture: an entry with `ltp = 0` (a legitimate zero price). -/
def cexEntryLtpZero : FeedEntry := ⟨some ⟨some 0, none, none, some 7⟩, none, none⟩

theorem C10_zero_ltp_skipped_witness :
    decodeFeeds 5 [(("K"), cexEntryLtpZero)] [] = decodeFeeds 5 [] [] :=
  (C10_zero_ltp_skipped 5 ("K") cexEntryLtpZero [] []).2.2 ⟨some 0, none, none, some 7⟩ rfl rfl

/-! ## Key splitting (C8) -/

lemma jsSplit_of_not_mem (sep : Char) (l : List Char) (h : sep ∉ l) :
    jsSplit sep l = [l] := by
  induction l with
  | nil => rfl
  | cons c cs ih =>
    have hc : ¬ c = sep := fun he => h (he ▸ List.mem_cons_self c cs)
    have hcs : sep ∉ cs := fun hm => h (List.mem_cons_of_mem _ hm)
    simp only [jsSplit, if_neg hc, ih hcs]

lemma jsSplit_append (sep : Char) (l₁ l₂ : List Char) (h : sep ∉ l₁) :
    jsSplit sep (l₁ ++ sep :: l₂) = l₁ :: jsSplit sep l₂ := by
  induction l₁ with
  | nil => simp [jsSplit]
  | cons c cs ih =>
    have hc : ¬ c = sep := fun he => h (he ▸ List.mem_cons_self c cs)
    have hcs : sep ∉ cs := fun hm => h (List.mem_cons_of_mem _ hm)
    simp only [List.cons_append, jsSplit, if_neg hc, List.append_eq, ih hcs]

/-- C8 (amended): for a key containing the separator, the constructed
live Tick carries the chunk before the first separator as `exchange`
and the chunk after it as `tradingsymbol` (when both are nonempty); for
a key WITHOUT the separator, the whole key becomes the symbol AND the
whole key (not "UNK") becomes the exchange — `key.split('|')` yields
`[key]`, so the destructured `exchange` is the key itself and the
`exchange || "UNK"` fallback only triggers for the empty string. -/
theorem C8_key_split :
    (∀ (now : ℤ) (d : Decoded), ('|') ∉ d.key.data →
        (liveTick now d).tradingsymbol = d.key
          ∧ (liveTick now d).exchange = if d.key = ("") then ("UNK") else d.key)
    ∧ (∀ (now : ℤ) (d : Decoded) (a b : String),
        d.key.data = a.data ++ ('|') :: b.data → ('|') ∉ a.data → ('|') ∉ b.data →
        a ≠ ("") → b ≠ ("") →
          (liveTick now d).tradingsymbol = b ∧ (liveTick now d).exchange = a) := by
  constructor
  · intro now d h
    have hs : splitParts d.key = [d.key] := by
      simp [splitParts, jsSplit_of_not_mem _ _ h]
    exact ⟨by simp [liveTick, keySymbol, hs], by simp [liveTick, keyExchange, hs]⟩
  · intro now d a b hdata ha hb hae hbe
    have hs : splitParts d.key = [a, b] := by
      simp [splitParts, hdata, jsSplit_append _ _ _ ha, jsSplit_of_not_mem _ _ hb]
    have hbd : ¬ b = ("") := hbe
    have had : ¬ a = ("") := hae
    exact ⟨by simp [liveTick, keySymbol, hs, hbd], by simp [liveTick, keyExchange, hs, had]⟩

/-- C8 counterexample: for key "ABC" (no separator) the constructed
tick has exchange "ABC", not the claimed "UNK" unknown marker. -/
theorem C8_key_split_cex :
    (liveTick 0 ⟨("ABC"), 0, 0, 1, 0, 1, 0⟩).exchange = ("ABC")
    ∧ ("ABC") ≠ ("UNK")
    ∧ (liveTick 0 ⟨("ABC"), 0, 0, 1, 0, 1, 0⟩).tradingsymbol = ("ABC") := by decide

theorem C8_key_split_witness :
    ((liveTick 0 ⟨("ABC"), 0, 0, 1, 0, 1, 0⟩).tradingsymbol = ("ABC")
      ∧ (liveTick 0 ⟨("ABC"), 0, 0, 1, 0, 1, 0⟩).exchange
          = if ("ABC") = ("") then ("UNK") else ("ABC"))
    ∧ ((liveTick 0 ⟨("NSE_EQ|XYZ"), 0, 0, 1, 0, 1, 0⟩).tradingsymbol = ("XYZ")
      ∧ (liveTick 0 ⟨("NSE_EQ|XYZ"), 0, 0, 1, 0, 1, 0⟩).exchange = ("NSE_EQ")) :=
  ⟨C8_key_split.1 0 ⟨("ABC"), 0, 0, 1, 0, 1, 0⟩ (by decide),
    C8_key_split.2 0 ⟨("NSE_EQ|XYZ"), 0, 0, 1, 0, 1, 0⟩ ("NSE_EQ") ("XYZ")
      (by decide) (by decide) (by decide) (by decide) (by decide)⟩

/-! ## injectFrame behaviour (C9, C7) -/

lemma addTestTick_malformed (t : ℤ) (s : Engine) :
    addTestTick t Payload.malformed s = { s with debugCount := s.debugCount + 2 } := rfl

lemma addTestTick_other (t : ℤ) (s : Engine) :
    addTestTick t Payload.other s = { s with debugCount := s.debugCount + 1 } := rfl

lemma addTestTick_liveFeed (t : ℤ) (feeds : List (String × FeedEntry)) (s : Engine) :
    addTestTick t (Payload.liveFeed feeds) s
      = (if (decodeFeeds t feeds s.lastTickForInstrument).1.isEmpty then
          { s with debugCount := s.debugCount + 1,
                   lastTickForInstrument := (decodeFeeds t feeds s.lastTickForInstrument).2 }
        else
          { s with debugCount := s.debugCount + 2,
                   lastTickForInstrument := (decodeFeeds t feeds s.lastTickForInstrument).2,
                   ticks := rbPushBatch MAX_TICKS
                     ((decodeFeeds t feeds s.lastTickForInstrument).1.map (testTick t)) s.ticks,
                   totalTicks := s.totalTicks + (decodeFeeds t feeds s.lastTickForInstrument).1.length,
                   lastTickTime := some t }) := rfl

/-- C9: `addTestTick` runs the frame-decoder path on its input with NO
guard on the connection state (the field equations below hold for every
engine state, in particular `disconnected` ones), and it leaves the
stall watchdog deadline — as well as the connection, reconnect timer,
pending connect-timeouts and alert buffer — exactly as they were. -/
theorem C9_inject_no_watchdog_reset :
    ∀ (s : Engine) (t : ℤ),
      (∀ p : Payload,
        (addTestTick t p s).freezeAt = s.freezeAt
        ∧ (addTestTick t p s).connectionStatus = s.connectionStatus
        ∧ (addTestTick t p s).reconnectAt = s.reconnectAt
        ∧ (addTestTick t p s).connectTimeouts = s.connectTimeouts
        ∧ (addTestTick t p s).esRef = s.esRef
        ∧ (addTestTick t p s).alerts = s.alerts
        ∧ (addTestTick t p s).isFrozen = s.isFrozen
        ∧ (addTestTick t p s).rawMessages = s.rawMessages
        ∧ (addTestTick t p s).freezingIncidents = s.freezingIncidents)
      ∧ (∀ feeds : List (String × FeedEntry),
          (addTestTick t (Payload.liveFeed feeds) s).lastTickForInstrument
              = (decodeFeeds t feeds s.lastTickForInstrument).2
          ∧ (addTestTick t (Payload.liveFeed feeds) s).totalTicks
              = s.totalTicks + (decodeFeeds t feeds s.lastTickForInstrument).1.length
          ∧ (addTestTick t (Payload.liveFeed feeds) s).ticks
              = (if (decodeFeeds t feeds s.lastTickForInstrument).1.isEmpty then s.ticks
                else rbPushBatch MAX_TICKS
                  ((decodeFeeds t feeds s.lastTickForInstrument).1.map (testTick t)) s.ticks)) := by
  intro s t
  constructor
  · intro p
    cases p with
    | malformed =>
      rw [addTestTick_malformed]
      exact ⟨rfl, rfl, rfl, rfl, rfl, rfl, rfl, rfl, rfl⟩
    | other =>
      rw [addTestTick_other]
      exact ⟨rfl, rfl, rfl, rfl, rfl, rfl, rfl, rfl, rfl⟩
    | liveFeed feeds =>
      rw [addTestTick_liveFeed]
      cases hr : (decodeFeeds t feeds s.lastTickForInstrument).1 with
      | nil => exact ⟨rfl, rfl, rfl, rfl, rfl, rfl, rfl, rfl, rfl⟩
      | cons hd tl => exact ⟨rfl, rfl, rfl, rfl, rfl, rfl, rfl, rfl, rfl⟩
  · intro feeds
    rw [addTestTick_liveFeed]
    cases hr : (decodeFeeds t feeds s.lastTickForInstrument).1 with
    | nil => exact ⟨rfl, by simp, rfl⟩
    | cons hd tl => exact ⟨rfl, rfl, rfl⟩

/-- C7 (amended): a syntactically invalid frame arriving on the LIVE
stream yields zero ticks, exactly one new medium-severity data alert,
and leaves the tick buffer, delay tracker, cumulative tick count and
connection status unchanged; the same frame given to `addTestTick`
(injectFrame) also yields zero ticks and changes none of those — but it
appends NO alert at all (its catch block only writes the debug log). -/
theorem C7_malformed_frame :
    (∀ (s : Engine) (t : ℤ) (h : ℕ), s.esRef = some h →
        findState h s.handles = ReadyState.opened →
        (onmessage t Payload.malformed s).alerts
            = rbPush MAX_ALERTS ⟨AlertKind.data, Severity.medium⟩ s.alerts
          ∧ (onmessage t Payload.malformed s).ticks = s.ticks
          ∧ (onmessage t Payload.malformed s).lastTickForInstrument = s.lastTickForInstrument
          ∧ (onmessage t Payload.malformed s).totalTicks = s.totalTicks
          ∧ (onmessage t Payload.malformed s).connectionStatus = s.connectionStatus)
    ∧ (∀ (s : Engine) (t : ℤ),
        (addTestTick t Payload.malformed s).alerts = s.alerts
          ∧ (addTestTick t Payload.malformed s).ticks = s.ticks
          ∧ (addTestTick t Payload.malformed s).lastTickForInstrument = s.lastTickForInstrument
          ∧ (addTestTick t Payload.malformed s).totalTicks = s.totalTicks
          ∧ (addTestTick t Payload.malformed s).connectionStatus = s.connectionStatus) := by
  constructor
  · intro s t h he hs
    refine ⟨?_, ?_, ?_, ?_, ?_⟩ <;>
      simp [onmessage, he, hs, scheduleFreeze, addAlert, addDebugInfo]
  · intro s t
    rw [addTestTick_malformed]
    exact ⟨rfl, rfl, rfl, rfl, rfl⟩

/-- C7 counterexample: injecting a malformed frame through
`addTestTick` on the initial state appends NO alert (the claim demands
exactly one new medium data alert on this path too). -/
theorem C7_malformed_frame_cex :
    (addTestTick 0 Payload.malformed init).alerts.length = 0
    ∧ (addTestTick 0 Payload.malformed init).ticks = [] := by decide

theorem C7_malformed_frame_witness :
    ((onmessage 2 Payload.malformed (run [Ev.connect 0, Ev.openEv 1])).alerts
        = rbPush MAX_ALERTS ⟨AlertKind.data, Severity.medium⟩
            (run [Ev.connect 0, Ev.openEv 1]).alerts
      ∧ (onmessage 2 Payload.malformed (run [Ev.connect 0, Ev.openEv 1])).ticks
          = (run [Ev.connect 0, Ev.openEv 1]).ticks
      ∧ (onmessage 2 Payload.malformed (run [Ev.connect 0, Ev.openEv 1])).lastTickForInstrument
          = (run [Ev.connect 0, Ev.openEv 1]).lastTickForInstrument
      ∧ (onmessage 2 Payload.malformed (run [Ev.connect 0, Ev.openEv 1])).totalTicks
          = (run [Ev.connect 0, Ev.openEv 1]).totalTicks
      ∧ (onmessage 2 Payload.malformed (run [Ev.connect 0, Ev.openEv 1])).connectionStatus
          = (run [Ev.connect 0, Ev.openEv 1]).connectionStatus)
    ∧ ((addTestTick 0 Payload.malformed init).alerts = init.alerts
      ∧ (addTestTick 0 Payload.malformed init).ticks = init.ticks
      ∧ (addTestTick 0 Payload.malformed init).lastTickForInstrument = init.lastTickForInstrument
      ∧ (addTestTick 0 Payload.malformed init).totalTicks = init.totalTicks
      ∧ (addTestTick 0 Payload.malformed init).connectionStatus = init.connectionStatus) :=
  ⟨C7_malformed_frame.1 (run [Ev.connect 0, Ev.openEv 1]) 2 0 (by decide) (by decide),
    C7_malformed_frame.2 init 0⟩

/-! ## Reconnect backoff (C1) -/

/-- C1 (amended): a transport-error-with-close event schedules the
reconnect for `reconnectDelay connectionAttempts` after now; for the
n-th consecutive FAILED ATTEMPT (counter = n ≥ 1) that delay is
`min(5000 * 2^(n-1), 30000)` ms, i.e. 5000, 10000, 20000, 30000, 30000,
...; a successful open resets the counter to 0 and each connect call
increments it — but a transport failure arriving while the counter is 0
(the drop of the established connection itself, before any new attempt)
schedules `reconnectDelay 0 = 2500` ms, not 5000. -/
theorem C1_backoff :
    (∀ (s : Engine) (t : ℤ) (h : ℕ), s.esRef = some h →
        (onerror t true s).reconnectAt = some (t + reconnectDelay s.connectionAttempts))
    ∧ (∀ n : ℕ, 1 ≤ n → reconnectDelay n = min (5000 * 2 ^ (n - 1)) 30000)
    ∧ reconnectDelay 1 = 5000 ∧ reconnectDelay 2 = 10000 ∧ reconnectDelay 3 = 20000
    ∧ reconnectDelay 4 = 30000 ∧ reconnectDelay 5 = 30000
    ∧ reconnectDelay 0 = 2500
    ∧ (∀ (s : Engine) (t : ℤ) (h : ℕ), s.esRef = some h →
        findState h s.handles = ReadyState.connecting →
        (onopen t s).connectionAttempts = 0)
    ∧ (∀ (s : Engine) (t : ℤ),
        (connectToUpstox t s).connectionAttempts = s.connectionAttempts + 1) := by
  refine ⟨?_, ?_, by decide, by decide, by decide, by decide, by decide, by decide, ?_, ?_⟩
  · intro s t h he
    simp [onerror, he, addDebugInfo, addAlert, removeTimeout]
  · intro n hn
    unfold reconnectDelay
    congr 1
    have h2 : (2 : ℤ) ^ n = 2 ^ (n - 1) * 2 := by
      conv_lhs => rw [show n = (n - 1) + 1 by omega]
      ring
    rw [h2, ← mul_assoc]
    exact Int.mul_ediv_cancel _ (by norm_num)
  · intro s t h he hs
    simp [onopen, he, hs, scheduleFreeze, addAlert, addDebugInfo, removeTimeout]
  · intro s t
    rcases hes : s.esRef with _ | h <;> simp [connectToUpstox, hes]

/-- C1 counterexample: connect, open successfully (counter resets to 0),
then the connection drops — the scheduled reconnect is 2500 ms after
the failure, not the claimed 5000 ms (5 time-units). -/
theorem C1_backoff_cex :
    (run [Ev.connect 0, Ev.openEv 1, Ev.errorEv 2 true]).reconnectAt = some (2 + 2500)
    ∧ (2500 : ℤ) ≠ 5000 := by decide

theorem C1_backoff_witness :
    (onerror 2 true (run [Ev.connect 0, Ev.openEv 1])).reconnectAt
        = some (2 + reconnectDelay 0)
    ∧ reconnectDelay 3 = min (5000 * 2 ^ (3 - 1)) 30000
    ∧ (onopen 1 (run [Ev.connect 0])).connectionAttempts = 0 :=
  ⟨C1_backoff.1 (run [Ev.connect 0, Ev.openEv 1]) 2 0 (by decide),
    C1_backoff.2.1 3 (by decide),
    C1_backoff.2.2.2.2.2.2.2.2.1 (run [Ev.connect 0]) 1 0 (by decide) (by decide)⟩

/-! ## Connect-timeout firing (C5) -/

/-- C5 (amended): when the connect-timeout fires while the EventSource
of that attempt is still CONNECTING, the connection is closed, the
status becomes `error` and exactly one high-severity connection alert
is pushed — but NO reconnect is scheduled: the pending reconnect
deadline is exactly what it was before (the timeout callback, lines
150-157, never arms the reconnect timer). -/
theorem C5_connect_timeout :
    ∀ (s : Engine) (t : ℤ) (id : ℕ),
      (t, id) ∈ s.connectTimeouts →
      findState id s.handles = ReadyState.connecting →
      findState id (connectionTimeoutFire t id s).handles = ReadyState.closed
      ∧ (connectionTimeoutFire t id s).connectionStatus = ConnStatus.error
      ∧ (connectionTimeoutFire t id s).alerts
          = rbPush MAX_ALERTS ⟨AlertKind.connection, Severity.high⟩ s.alerts
      ∧ (connectionTimeoutFire t id s).reconnectAt = s.reconnectAt
      ∧ (connectionTimeoutFire t id s).esRef = s.esRef := by
  intro s t id hmem hstate
  refine ⟨?_, ?_, ?_, ?_, ?_⟩ <;>
    simp [connectionTimeoutFire, hmem, hstate, addAlert, addDebugInfo, findState]

/-- C5 counterexample: connect at time 0, let the connect-timeout fire
at 15000 while still CONNECTING — the status becomes `error` but no
reconnect is scheduled (`reconnectAt` stays `none`), contradicting the
claim's fourth conjunct. -/
theorem C5_connect_timeout_cex :
    (connectionTimeoutFire 15000 0 (run [Ev.connect 0])).connectionStatus = ConnStatus.error
    ∧ (connectionTimeoutFire 15000 0 (run [Ev.connect 0])).reconnectAt = none := by decide

theorem C5_connect_timeout_witness :
    findState 0 (connectionTimeoutFire 15000 0 (run [Ev.connect 0])).handles = ReadyState.closed
    ∧ (connectionTimeoutFire 15000 0 (run [Ev.connect 0])).connectionStatus = ConnStatus.error
    ∧ (connectionTimeoutFire 15000 0 (run [Ev.connect 0])).alerts
        = rbPush MAX_ALERTS ⟨AlertKind.connection, Severity.high⟩ (run [Ev.connect 0]).alerts
    ∧ (connectionTimeoutFire 15000 0 (run [Ev.connect 0])).reconnectAt
        = (run [Ev.connect 0]).reconnectAt
    ∧ (connectionTimeoutFire 15000 0 (run [Ev.connect 0])).esRef = (run [Ev.connect 0]).esRef :=
  C5_connect_timeout (run [Ev.connect 0]) 15000 0 (by decide) (by decide)

/-! ## Stall watchdog (C3) -/

/-- C3: a pending watchdog deadline that fires marks `isFrozen`,
increments the freeze-incident counter by exactly one, pushes exactly
one high-severity freeze alert, and consumes the deadline so a second
fire is a strict no-op; every inbound frame (whatever its content) and
every successful open re-arm the deadline to 30000 ms from now; a
malformed or non-live frame and a live frame decoding to zero ticks
leave `isFrozen` unchanged, while a live frame decoding to at least one
tick clears it. -/
theorem C3_watchdog :
    (∀ (s : Engine) (d : ℤ), s.freezeAt = some d →
        (freezeTimeoutFire d s).isFrozen = true
        ∧ (freezeTimeoutFire d s).freezingIncidents = s.freezingIncidents + 1
        ∧ (freezeTimeoutFire d s).alerts
            = rbPush MAX_ALERTS ⟨AlertKind.freeze, Severity.high⟩ s.alerts
        ∧ (freezeTimeoutFire d s).freezeAt = none
        ∧ (∀ t2 : ℤ, freezeTimeoutFire t2 (freezeTimeoutFire d s) = freezeTimeoutFire d s))
    ∧ (∀ (s : Engine) (t : ℤ) (p : Payload) (h : ℕ), s.esRef = some h →
        findState h s.handles = ReadyState.opened →
        (onmessage t p s).freezeAt = some (t + FREEZE_TIMEOUT))
    ∧ (∀ (s : Engine) (t : ℤ) (h : ℕ), s.esRef = some h →
        findState h s.handles = ReadyState.connecting →
        (onopen t s).freezeAt = some (t + FREEZE_TIMEOUT))
    ∧ (∀ (s : Engine) (t : ℤ) (h : ℕ), s.esRef = some h →
        findState h s.handles = ReadyState.opened →
        (onmessage t Payload.malformed s).isFrozen = s.isFrozen
        ∧ (onmessage t Payload.other s).isFrozen = s.isFrozen)
    ∧ (∀ (s : Engine) (t : ℤ) (h : ℕ) (feeds : List (String × FeedEntry)),
        s.esRef = some h → findState h s.handles = ReadyState.opened →
        ((decodeFeeds t feeds s.lastTickForInstrument).1 = [] →
            (onmessage t (Payload.liveFeed feeds) s).isFrozen = s.isFrozen)
        ∧ ((decodeFeeds t feeds s.lastTickForInstrument).1 ≠ [] →
            (onmessage t (Payload.liveFeed feeds) s).isFrozen = false)) := by
  refine ⟨?_, ?_, ?_, ?_, ?_⟩
  · intro s d hf
    refine ⟨?_, ?_, ?_, ?_, ?_⟩ <;>
      simp [freezeTimeoutFire, hf, addAlert, addDebugInfo]
  · intro s t p h he hs
    cases p with
    | malformed => simp [onmessage, he, hs, scheduleFreeze, addAlert, addDebugInfo]
    | other => simp [onmessage, he, hs, scheduleFreeze, addAlert, addDebugInfo]
    | liveFeed feeds =>
      simp only [onmessage, he, hs, scheduleFreeze, addAlert, addDebugInfo, if_true]
      split <;> rfl
  · intro s t h he hs
    simp [onopen, he, hs, scheduleFreeze, addAlert, addDebugInfo, removeTimeout]
  · intro s t h he hs
    constructor <;> simp [onmessage, he, hs, scheduleFreeze, addAlert, addDebugInfo]
  · intro s t h feeds he hs
    constructor
    · intro hr
      simp [onmessage, he, hs, scheduleFreeze, addAlert, addDebugInfo, hr]
    · intro hr
      cases hr2 : (decodeFeeds t feeds s.lastTickForInstrument).1 with
      | nil => exact absurd hr2 hr
      | cons hd tl =>
        simp [onmessage, he, hs, scheduleFreeze, addAlert, addDebugInfo, hr2]

/-- Test fixture: a decodable entry (nonzero price, explicit ltt). -/
def liveEntryOk : FeedEntry := ⟨some ⟨some 2, none, none, some 100⟩, none, none⟩

theorem C3_watchdog_witness :
    (freezeTimeoutFire 30001 (run [Ev.connect 0, Ev.openEv 1])).isFrozen = true
    ∧ (freezeTimeoutFire 30001 (run [Ev.connect 0, Ev.openEv 1])).freezingIncidents
        = (run [Ev.connect 0, Ev.openEv 1]).freezingIncidents + 1
    ∧ (onmessage 2 Payload.other (run [Ev.connect 0, Ev.openEv 1])).freezeAt
        = some (2 + FREEZE_TIMEOUT)
    ∧ (onopen 1 (run [Ev.connect 0])).freezeAt = some (1 + FREEZE_TIMEOUT)
    ∧ (onmessage 2 Payload.malformed (run [Ev.connect 0, Ev.openEv 1])).isFrozen
        = (run [Ev.connect 0, Ev.openEv 1]).isFrozen
    ∧ (onmessage 2 (Payload.liveFeed []) (run [Ev.connect 0, Ev.openEv 1])).isFrozen
        = (run [Ev.connect 0, Ev.openEv 1]).isFrozen
    ∧ (onmessage 2 (Payload.liveFeed [(("NSE_EQ|XYZ"), liveEntryOk)])
          (run [Ev.connect 0, Ev.openEv 1])).isFrozen = false :=
  ⟨(C3_watchdog.1 (run [Ev.connect 0, Ev.openEv 1]) 30001 (by decide)).1,
    (C3_watchdog.1 (run [Ev.connect 0, Ev.openEv 1]) 30001 (by decide)).2.1,
    C3_watchdog.2.1 (run [Ev.connect 0, Ev.openEv 1]) 2 Payload.other 0 (by decide) (by decide),
    C3_watchdog.2.2.1 (run [Ev.connect 0]) 1 0 (by decide) (by decide),
    (C3_watchdog.2.2.2.1 (run [Ev.connect 0, Ev.openEv 1]) 2 0 (by decide) (by decide)).1,
    (C3_watchdog.2.2.2.2 (run [Ev.connect 0, Ev.openEv 1]) 2 0 [] (by decide) (by decide)).1
      (by decide),
    (C3_watchdog.2.2.2.2 (run [Ev.connect 0, Ev.openEv 1]) 2 0 [(("NSE_EQ|XYZ"), liveEntryOk)]
      (by decide) (by decide)).2 (by decide)⟩

/-! ## Teardown (C6) -/

/-- All engine state except the pending connect-timeout queue (the
queue models the JS runtime's timer table; a timer silently expiring is
not a program-visible state change). -/
def sameVisible (a b : Engine) : Prop :=
  a.ticks = b.ticks ∧ a.alerts = b.alerts ∧ a.connectionStatus = b.connectionStatus
  ∧ a.isFrozen = b.isFrozen ∧ a.lastTickTime = b.lastTickTime ∧ a.totalTicks = b.totalTicks
  ∧ a.freezingIncidents = b.freezingIncidents ∧ a.rawMessages = b.rawMessages
  ∧ a.debugCount = b.debugCount ∧ a.lastTickForInstrument = b.lastTickForInstrument
  ∧ a.connectionAttempts = b.connectionAttempts ∧ a.esRef = b.esRef
  ∧ a.handles = b.handles ∧ a.nextId = b.nextId ∧ a.freezeAt = b.freezeAt
  ∧ a.reconnectAt = b.reconnectAt

/-- Invariant of reachable states: every pending connect-timeout refers
to an already-allocated EventSource id, and when that EventSource is
still CONNECTING it is the current one — each new connect closes the
previous EventSource before arming its own timeout. -/
def GoodEngine (s : Engine) : Prop :=
  (∀ q ∈ s.connectTimeouts,
      q.2 < s.nextId
        ∧ (findState q.2 s.handles = ReadyState.connecting → s.esRef = some q.2))
  ∧ ∀ h, s.esRef = some h → h < s.nextId

lemma findState_cons (i j : ℕ) (st : ReadyState) (hs : List (ℕ × ReadyState)) :
    findState i ((j, st) :: hs) = if i = j then st else findState i hs := rfl

lemma good_congr (s s2 : Engine) (hg : GoodEngine s)
    (h1 : s2.connectTimeouts = s.connectTimeouts) (h2 : s2.handles = s.handles)
    (h3 : s2.esRef = s.esRef) (h4 : s2.nextId = s.nextId) : GoodEngine s2 := by
  unfold GoodEngine at hg ⊢
  rw [h1, h2, h3, h4]
  exact hg

lemma connectToUpstox_timers (t : ℤ) (s : Engine) :
    (connectToUpstox t s).connectTimeouts
        = (t + CONNECT_TIMEOUT, s.nextId) :: s.connectTimeouts
    ∧ (connectToUpstox t s).esRef = some s.nextId
    ∧ (connectToUpstox t s).nextId = s.nextId + 1
    ∧ ((s.esRef = none
          ∧ (connectToUpstox t s).handles = (s.nextId, ReadyState.connecting) :: s.handles)
        ∨ (∃ h0, s.esRef = some h0
            ∧ (connectToUpstox t s).handles
                = (s.nextId, ReadyState.connecting) :: (h0, ReadyState.closed) :: s.handles)) := by
  rcases hes : s.esRef with _ | h0
  · simp [connectToUpstox, hes]
  · simp [connectToUpstox, hes]

lemma good_connectToUpstox (t : ℤ) (s : Engine) (hg : GoodEngine s) :
    GoodEngine (connectToUpstox t s) := by
  obtain ⟨hq, hr⟩ := hg
  obtain ⟨hct, hes2, hni, hh⟩ := connectToUpstox_timers t s
  constructor
  · intro q hmem
    rw [hct] at hmem
    rcases List.mem_cons.mp hmem with hq1 | hq2
    · subst hq1
      exact ⟨by rw [hni]; omega, fun _ => by rw [hes2]⟩
    · obtain ⟨hlt, himp⟩ := hq q hq2
      refine ⟨by rw [hni]; omega, fun hconn => ?_⟩
      exfalso
      have hne : ¬ q.2 = s.nextId := by omega
      rcases hh with ⟨hes0, hcase⟩ | ⟨h0, hes0, hcase⟩
      · rw [hcase, findState_cons, if_neg hne] at hconn
        rw [hes0] at himp
        exact Option.noConfusion (himp hconn)
      · rw [hcase, findState_cons, if_neg hne, findState_cons] at hconn
        by_cases hqh : q.2 = h0
        · rw [if_pos hqh] at hconn
          exact ReadyState.noConfusion hconn
        · rw [if_neg hqh] at hconn
          have := himp hconn
          rw [hes0] at this
          exact hqh (Option.some.injEq _ _ ▸ this).symm
  · intro h hh2
    rw [hes2] at hh2
    have : h = s.nextId := (Option.some.injEq _ _ ▸ hh2.symm)
    rw [this, hni]
    omega

lemma mem_of_mem_filter_ne {β : Type} [DecidableEq β] (q : β) (l : List β) (x : β)
    (h : q ∈ l.filter (fun y => y ≠ x)) : q ∈ l :=
  (List.mem_filter.mp h).1

lemma mem_of_mem_filter_snd (q : ℤ × ℕ) (l : List (ℤ × ℕ)) (h0 : ℕ)
    (h : q ∈ l.filter (fun y => y.2 ≠ h0)) : q ∈ l ∧ q.2 ≠ h0 := by
  have := List.mem_filter.mp h
  exact ⟨this.1, by simpa using this.2⟩

lemma good_onopen (t : ℤ) (s : Engine) (hg : GoodEngine s) : GoodEngine (onopen t s) := by
  obtain ⟨hq, hr⟩ := hg
  rcases hes : s.esRef with _ | h0
  · exact good_congr s _ ⟨hq, hr⟩ (by simp [onopen, hes]) (by simp [onopen, hes])
      (by simp [onopen, hes]) (by simp [onopen, hes])
  · by_cases hst : findState h0 s.handles = ReadyState.connecting
    · have hfields :
          (onopen t s).connectTimeouts = s.connectTimeouts.filter (fun q => q.2 ≠ h0)
          ∧ (onopen t s).handles = (h0, ReadyState.opened) :: s.handles
          ∧ (onopen t s).esRef = s.esRef ∧ (onopen t s).nextId = s.nextId := by
        refine ⟨?_, ?_, ?_, ?_⟩ <;>
          simp [onopen, hes, hst, removeTimeout, addDebugInfo, addAlert, scheduleFreeze]
      obtain ⟨hct, hh, hes2, hni⟩ := hfields
      constructor
      · intro q hmem
        rw [hct] at hmem
        obtain ⟨hmem2, hne⟩ := mem_of_mem_filter_snd q _ _ hmem
        obtain ⟨hlt, himp⟩ := hq q hmem2
        refine ⟨by rw [hni]; omega, fun hconn => ?_⟩
        rw [hh, findState_cons, if_neg hne] at hconn
        rw [hes2]
        exact himp hconn
      · intro h hh2
        rw [hes2] at hh2
        rw [hni]
        exact hr h hh2
    · exact good_congr s _ ⟨hq, hr⟩ (by simp [onopen, hes, hst]) (by simp [onopen, hes, hst])
        (by simp [onopen, hes, hst]) (by simp [onopen, hes, hst])

lemma good_onerror (t : ℤ) (closed : Bool) (s : Engine) (hg : GoodEngine s) :
    GoodEngine (onerror t closed s) := by
  obtain ⟨hq, hr⟩ := hg
  rcases hes : s.esRef with _ | h0
  · exact good_congr s _ ⟨hq, hr⟩ (by simp [onerror, hes]) (by simp [onerror, hes])
      (by simp [onerror, hes]) (by simp [onerror, hes])
  · cases closed with
    | false =>
      have hfields :
          (onerror t false s).connectTimeouts = s.connectTimeouts.filter (fun q => q.2 ≠ h0)
          ∧ (onerror t false s).handles = s.handles
          ∧ (onerror t false s).esRef = s.esRef ∧ (onerror t false s).nextId = s.nextId := by
        refine ⟨?_, ?_, ?_, ?_⟩ <;>
          simp [onerror, hes, removeTimeout, addDebugInfo, addAlert]
      obtain ⟨hct, hh, hes2, hni⟩ := hfields
      constructor
      · intro q hmem
        rw [hct] at hmem
        obtain ⟨hmem2, _⟩ := mem_of_mem_filter_snd q _ _ hmem
        obtain ⟨hlt, himp⟩ := hq q hmem2
        refine ⟨by rw [hni]; omega, fun hconn => ?_⟩
        rw [hh] at hconn
        rw [hes2]
        exact himp hconn
      · intro h hh2
        rw [hes2] at hh2
        rw [hni]
        exact hr h hh2
    | true =>
      have hfields :
          (onerror t true s).connectTimeouts = s.connectTimeouts.filter (fun q => q.2 ≠ h0)
          ∧ (onerror t true s).handles = (h0, ReadyState.closed) :: s.handles
          ∧ (onerror t true s).esRef = s.esRef ∧ (onerror t true s).nextId = s.nextId := by
        refine ⟨?_, ?_, ?_, ?_⟩ <;>
          simp [onerror, hes, removeTimeout, addDebugInfo, addAlert]
      obtain ⟨hct, hh, hes2, hni⟩ := hfields
      constructor
      · intro q hmem
        rw [hct] at hmem
        obtain ⟨hmem2, hne⟩ := mem_of_mem_filter_snd q _ _ hmem
        obtain ⟨hlt, himp⟩ := hq q hmem2
        refine ⟨by rw [hni]; omega, fun hconn => ?_⟩
        rw [hh, findState_cons, if_neg hne] at hconn
        rw [hes2]
        exact himp hconn
      · intro h hh2
        rw [hes2] at hh2
        rw [hni]
        exact hr h hh2

lemma good_connectionTimeoutFire (t : ℤ) (id : ℕ) (s : Engine) (hg : GoodEngine s) :
    GoodEngine (connectionTimeoutFire t id s) := by
  obtain ⟨hq, hr⟩ := hg
  by_cases hmem : (t, id) ∈ s.connectTimeouts
  · by_cases hst : findState id s.handles = ReadyState.connecting
    · have hfields :
          (connectionTimeoutFire t id s).connectTimeouts
              = s.connectTimeouts.filter (fun q => q ≠ (t, id))
          ∧ (connectionTimeoutFire t id s).handles = (id, ReadyState.closed) :: s.handles
          ∧ (connectionTimeoutFire t id s).esRef = s.esRef
          ∧ (connectionTimeoutFire t id s).nextId = s.nextId := by
        refine ⟨?_, ?_, ?_, ?_⟩ <;>
          simp [connectionTimeoutFire, hmem, hst, addDebugInfo, addAlert]
      obtain ⟨hct, hh, hes2, hni⟩ := hfields
      constructor
      · intro q hmem2
        rw [hct] at hmem2
        have hmem3 : q ∈ s.connectTimeouts := mem_of_mem_filter_ne q _ _ hmem2
        obtain ⟨hlt, himp⟩ := hq q hmem3
        refine ⟨by rw [hni]; omega, fun hconn => ?_⟩
        rw [hh, findState_cons] at hconn
        by_cases hqh : q.2 = id
        · rw [if_pos hqh] at hconn
          exact absurd hconn (by simp)
        · rw [if_neg hqh] at hconn
          rw [hes2]
          exact himp hconn
      · intro h hh2
        rw [hes2] at hh2
        rw [hni]
        exact hr h hh2
    · have hfields :
          (connectionTimeoutFire t id s).connectTimeouts
              = s.connectTimeouts.filter (fun q => q ≠ (t, id))
          ∧ (connectionTimeoutFire t id s).handles = s.handles
          ∧ (connectionTimeoutFire t id s).esRef = s.esRef
          ∧ (connectionTimeoutFire t id s).nextId = s.nextId := by
        refine ⟨?_, ?_, ?_, ?_⟩ <;>
          simp [connectionTimeoutFire, hmem, hst, addDebugInfo, addAlert]
      obtain ⟨hct, hh, hes2, hni⟩ := hfields
      constructor
      · intro q hmem2
        rw [hct] at hmem2
        have hmem3 : q ∈ s.connectTimeouts := mem_of_mem_filter_ne q _ _ hmem2
        obtain ⟨hlt, himp⟩ := hq q hmem3
        refine ⟨by rw [hni]; omega, fun hconn => ?_⟩
        rw [hh] at hconn
        rw [hes2]
        exact himp hconn
      · intro h hh2
        rw [hes2] at hh2
        rw [hni]
        exact hr h hh2
  · exact good_congr s _ ⟨hq, hr⟩ (by simp [connectionTimeoutFire, hmem])
      (by simp [connectionTimeoutFire, hmem]) (by simp [connectionTimeoutFire, hmem])
      (by simp [connectionTimeoutFire, hmem])

lemma good_reconnectFire (t : ℤ) (s : Engine) (hg : GoodEngine s) :
    GoodEngine (reconnectFire t s) := by
  by_cases hra : s.reconnectAt = some t
  · have h1 : GoodEngine { s with reconnectAt := none } :=
      good_congr s _ hg rfl rfl rfl rfl
    have h2 := good_connectToUpstox t { s with reconnectAt := none } h1
    simpa [reconnectFire, hra] using h2
  · exact good_congr s _ hg (by simp [reconnectFire, hra]) (by simp [reconnectFire, hra])
      (by simp [reconnectFire, hra]) (by simp [reconnectFire, hra])

lemma freezeTimeoutFire_fields (t : ℤ) (s : Engine) :
    (freezeTimeoutFire t s).connectTimeouts = s.connectTimeouts
    ∧ (freezeTimeoutFire t s).handles = s.handles
    ∧ (freezeTimeoutFire t s).esRef = s.esRef
    ∧ (freezeTimeoutFire t s).nextId = s.nextId := by
  unfold freezeTimeoutFire
  split
  · exact ⟨rfl, rfl, rfl, rfl⟩
  · exact ⟨rfl, rfl, rfl, rfl⟩

lemma onmessage_fields (t : ℤ) (p : Payload) (s : Engine) :
    (onmessage t p s).connectTimeouts = s.connectTimeouts
    ∧ (onmessage t p s).handles = s.handles
    ∧ (onmessage t p s).esRef = s.esRef
    ∧ (onmessage t p s).nextId = s.nextId := by
  rcases hes : s.esRef with _ | h
  · simp [onmessage, hes]
  · by_cases hst : findState h s.handles = ReadyState.opened
    · cases p with
      | malformed => simp [onmessage, hes, hst, scheduleFreeze, addAlert, addDebugInfo]
      | other => simp [onmessage, hes, hst, scheduleFreeze, addAlert, addDebugInfo]
      | liveFeed feeds =>
        simp only [onmessage, hes, hst, if_pos, scheduleFreeze, addAlert, addDebugInfo]
        split
        · exact ⟨rfl, rfl, rfl, rfl⟩
        · exact ⟨rfl, rfl, rfl, rfl⟩
    · simp [onmessage, hes, hst]

lemma addTestTick_fields (t : ℤ) (p : Payload) (s : Engine) :
    (addTestTick t p s).connectTimeouts = s.connectTimeouts
    ∧ (addTestTick t p s).handles = s.handles
    ∧ (addTestTick t p s).esRef = s.esRef
    ∧ (addTestTick t p s).nextId = s.nextId := by
  cases p with
  | malformed => rw [addTestTick_malformed]; exact ⟨rfl, rfl, rfl, rfl⟩
  | other => rw [addTestTick_other]; exact ⟨rfl, rfl, rfl, rfl⟩
  | liveFeed feeds =>
    rw [addTestTick_liveFeed]
    split
    · exact ⟨rfl, rfl, rfl, rfl⟩
    · exact ⟨rfl, rfl, rfl, rfl⟩

lemma good_cleanup (s : Engine) (hg : GoodEngine s) : GoodEngine (cleanup s) := by
  obtain ⟨hq, hr⟩ := hg
  rcases hes : s.esRef with _ | h0
  · have hfields :
        (cleanup s).connectTimeouts = s.connectTimeouts ∧ (cleanup s).handles = s.handles
        ∧ (cleanup s).esRef = none ∧ (cleanup s).nextId = s.nextId := by
      refine ⟨?_, ?_, ?_, ?_⟩ <;> simp [cleanup, addDebugInfo, hes]
    obtain ⟨hct, hh, hes2, hni⟩ := hfields
    constructor
    · intro q hmem
      rw [hct] at hmem
      obtain ⟨hlt, himp⟩ := hq q hmem
      refine ⟨by rw [hni]; omega, fun hconn => ?_⟩
      rw [hh] at hconn
      have := himp hconn
      rw [hes] at this
      exact Option.noConfusion this
    · intro h hh2
      rw [hes2] at hh2
      exact Option.noConfusion hh2
  · have hfields :
        (cleanup s).connectTimeouts = s.connectTimeouts
        ∧ (cleanup s).handles = (h0, ReadyState.closed) :: s.handles
        ∧ (cleanup s).esRef = none ∧ (cleanup s).nextId = s.nextId := by
      refine ⟨?_, ?_, ?_, ?_⟩ <;> simp [cleanup, addDebugInfo, hes]
    obtain ⟨hct, hh, hes2, hni⟩ := hfields
    constructor
    · intro q hmem
      rw [hct] at hmem
      obtain ⟨hlt, himp⟩ := hq q hmem
      refine ⟨by rw [hni]; omega, fun hconn => ?_⟩
      exfalso
      rw [hh, findState_cons] at hconn
      by_cases hqh : q.2 = h0
      · rw [if_pos hqh] at hconn
        exact ReadyState.noConfusion hconn
      · rw [if_neg hqh] at hconn
        have := himp hconn
        rw [hes] at this
        exact hqh (Option.some.injEq _ _ ▸ this).symm
    · intro h hh2
      rw [hes2] at hh2
      exact Option.noConfusion hh2

lemma good_init : GoodEngine init := by
  constructor
  · intro q hmem
    exact absurd hmem (by simp [init])
  · intro h hh2
    exact Option.noConfusion hh2

lemma good_step (e : Ev) (s : Engine) (hg : GoodEngine s) : GoodEngine (step s e) := by
  cases e with
  | connect t => exact good_connectToUpstox t s hg
  | openEv t => exact good_onopen t s hg
  | message t p =>
    obtain ⟨h1, h2, h3, h4⟩ := onmessage_fields t p s
    exact good_congr s _ hg h1 h2 h3 h4
  | errorEv t closed => exact good_onerror t closed s hg
  | timeoutFire t id => exact good_connectionTimeoutFire t id s hg
  | reconnectEv t => exact good_reconnectFire t s hg
  | freezeEv t =>
    obtain ⟨h1, h2, h3, h4⟩ := freezeTimeoutFire_fields t s
    exact good_congr s _ hg h1 h2 h3 h4
  | inject t p =>
    obtain ⟨h1, h2, h3, h4⟩ := addTestTick_fields t p s
    exact good_congr s _ hg h1 h2 h3 h4
  | stopEv => exact good_cleanup s hg

lemma good_run (es : List Ev) : GoodEngine (run es) := by
  suffices h : ∀ s, GoodEngine s → GoodEngine (es.foldl step s) from h init good_init
  induction es with
  | nil => exact fun s hs => hs
  | cons e es ih => exact fun s hs => ih _ (good_step e s hs)

lemma cleanup_stops (s : Engine) :
    (cleanup s).freezeAt = none ∧ (cleanup s).reconnectAt = none
    ∧ (cleanup s).esRef = none := by
  rcases hes : s.esRef with _ | h <;> simp [cleanup, addDebugInfo, hes]

lemma cleanup_of_stopped (s : Engine) (he : s.esRef = none) (hf : s.freezeAt = none)
    (hr : s.reconnectAt = none) :
    cleanup s = { s with debugCount := s.debugCount + 1 } := by
  simp only [cleanup, addDebugInfo, he]
  rw [hf, hr]

/-- C6 (amended): from any reachable state, teardown cancels the
watchdog and reconnect timers, closes the connection (`esRef` cleared),
and never throws (it is a total function); a second teardown changes
nothing except appending one debug-log entry (the unconditional
`addDebugInfo` at the top of the cleanup); the connect-timeout timers
are NOT cancelled — but a connect-timeout firing after teardown changes
no program-visible state (its EventSource is no longer CONNECTING), and
the watchdog and reconnect timers cannot fire at all. -/
theorem C6_teardown :
    ∀ (es : List Ev) (t2 t3 t4 : ℤ) (id : ℕ),
      (cleanup (run es)).freezeAt = none
      ∧ (cleanup (run es)).reconnectAt = none
      ∧ (cleanup (run es)).esRef = none
      ∧ cleanup (cleanup (run es))
          = { cleanup (run es) with debugCount := (cleanup (run es)).debugCount + 1 }
      ∧ sameVisible (connectionTimeoutFire t2 id (cleanup (run es))) (cleanup (run es))
      ∧ freezeTimeoutFire t3 (cleanup (run es)) = cleanup (run es)
      ∧ reconnectFire t4 (cleanup (run es)) = cleanup (run es) := by
  intro es t2 t3 t4 id
  obtain ⟨hf, hra, hes⟩ := cleanup_stops (run es)
  refine ⟨hf, hra, hes, cleanup_of_stopped _ hes hf hra, ?_, ?_, ?_⟩
  · by_cases hmem : (t2, id) ∈ (cleanup (run es)).connectTimeouts
    · have hgood : GoodEngine (cleanup (run es)) := good_cleanup _ (good_run es)
      have hst : ¬ findState id (cleanup (run es)).handles = ReadyState.connecting := by
        intro hconn
        have := (hgood.1 (t2, id) hmem).2 hconn
        rw [hes] at this
        exact Option.noConfusion this
      simp only [connectionTimeoutFire, if_pos hmem]
      rw [if_neg hst]
      exact ⟨rfl, rfl, rfl, rfl, rfl, rfl, rfl, rfl, rfl, rfl, rfl, rfl, rfl, rfl, rfl, rfl⟩
    · simp only [connectionTimeoutFire, if_neg hmem]
      exact ⟨rfl, rfl, rfl, rfl, rfl, rfl, rfl, rfl, rfl, rfl, rfl, rfl, rfl, rfl, rfl, rfl⟩
  · simp [freezeTimeoutFire, hf]
  · simp [reconnectFire, hra]

/-- C6 counterexample: connect at time 0 then tear down — the
connect-timeout armed by the connect is still pending after cleanup
(the claim says every pending timer is cancelled), and a second cleanup
is not a strict no-op: it appends one more debug-log entry. -/
theorem C6_teardown_cex :
    (cleanup (run [Ev.connect 0])).connectTimeouts = [(15000, 0)]
    ∧ (cleanup (cleanup (run [Ev.connect 0]))).debugCount
        = (cleanup (run [Ev.connect 0])).debugCount + 1 := by decide

end TickMonitor
